import Mathlib

/-! FSRenderer, `Src/Samples/Multi/Multi.cpp`: bring-up sequence and teardown.

A shallow embedding of the sample program.  The program is a linear sequence of
calls into three external libraries (GLFW, Vulkan, VMA).  Each source function
is embedded as a pure function from

* the outcomes of the external calls (`Env`), and
* the process-wide globals (`Globals`: `instance`, `surface`, `window`)

to the list of external calls it issues, in program order (`List Call`), the
updated globals, and the way control leaves the function (`Exit`).

A `std::vector` that cannot obtain its storage throws `std::bad_alloc`; the
outcome of each such allocation is part of `Env`.  Text written to `std::cout` /
`std::cerr` is not part of the embedding.
-/

namespace FSRenderer

/-! ## Handles, result codes and header constants -/

/-- Opaque handle (`VkInstance`, `VkSurfaceKHR`, `GLFWwindow*`, `VkDevice`,
`VmaAllocator`, `VkPhysicalDevice`); `0` is `VK_NULL_HANDLE` / `nullptr`. -/
abbrev Handle := Nat

/-- Result code `VkResult` of the graphics API. -/
abbrev VkResult := Int

/-- Modelled from the spec: the null handle `VK_NULL_HANDLE`, a constant of the
Vulkan headers, which are not under `src/`. -/
def VK_NULL_HANDLE : Handle := 0

/-- Modelled from the spec: the success code `VK_SUCCESS`, a constant of the
Vulkan headers, which are not under `src/`. -/
def VK_SUCCESS : VkResult := 0

/-- Modelled from the spec: the fixed debug-utilities extension name, a constant
of the Vulkan headers, which are not under `src/`. -/
def VK_EXT_DEBUG_UTILS_EXTENSION_NAME : String := "VK_EXT_debug_utils"

/-- Modelled from the spec: the key state "pressed", a constant of the GLFW
headers, which are not under `src/`. -/
def GLFW_PRESS : Int := 1

/-- Modelled from the spec: the key code of the escape key, a constant of the
GLFW headers, which are not under `src/`. -/
def GLFW_KEY_ESCAPE : Int := 256

/-- Modelled from the spec: the window hint naming the client API, a constant of
the GLFW headers, which are not under `src/`. -/
def GLFW_CLIENT_API : Int := 0x00022001

/-- Modelled from the spec: the hint value "no client API", a constant of the
GLFW headers, which are not under `src/`. -/
def GLFW_NO_API : Int := 0

/-- Modelled from the spec: the window hint "resizable", a constant of the GLFW
headers, which are not under `src/`. -/
def GLFW_RESIZABLE : Int := 0x00020003

/-- Modelled from the spec: the boolean false of the GLFW headers, which are not
under `src/`. -/
def GLFW_FALSE : Int := 0

/-- Conversion `static_cast<uint32_t>(n)` of a `size_t`. -/
def toUInt32 (n : Nat) : Nat := n % 2 ^ 32

/-- C library `strcmp` on names: `0` exactly when the two names are equal. -/
def strcmp (a b : String) : Int :=
  if a = b then 0 else if a < b then -1 else 1

/-! ## Records passed to the external libraries -/

/-- The fields of `VkInstanceCreateInfo` that `createInstance` sets.  A
value-initialised record (`createInfo{}`) has counts `0` and null arrays. -/
structure VkInstanceCreateInfo where
  enabledExtensionCount : Nat
  ppEnabledExtensionNames : List String
  enabledLayerCount : Nat
  ppEnabledLayerNames : List String
deriving DecidableEq, Repr

/-- The fields of `VmaAllocatorCreateInfo` that `validateVma` sets. -/
structure VmaAllocatorCreateInfo where
  physicalDevice : Handle
  device : Handle
  vkInstance : Handle
deriving DecidableEq, Repr

/-! ## External calls -/

/-- One call into an external library, with its arguments; creation calls also
record the result code and the handle written to the output parameter.  The
flag `fill` of an enumeration call says whether the output array pointer is
non-null. -/
inductive Call where
  | glfwInit (ok : Bool)
  | glfwWindowHint (hint value : Int)
  | glfwCreateWindow (width height : Nat) (title : String) (window : Handle)
  | glfwGetRequiredInstanceExtensions
  | vkEnumerateInstanceLayerProperties (fill : Bool)
  | vkCreateInstance (createInfo : VkInstanceCreateInfo) (res : VkResult) (inst : Handle)
  | glfwCreateWindowSurface (inst window : Handle) (res : VkResult) (surface : Handle)
  | vkEnumeratePhysicalDevices (inst : Handle) (fill : Bool)
  | vkCreateDevice (physicalDevice : Handle) (res : VkResult) (device : Handle)
  | vmaCreateAllocator (info : VmaAllocatorCreateInfo) (res : VkResult) (allocator : Handle)
  | vmaDestroyAllocator (allocator : Handle)
  | vkDestroyDevice (device : Handle)
  | vkDestroySurfaceKHR (inst surface : Handle)
  | vkDestroyInstance (inst : Handle)
  | glfwDestroyWindow (window : Handle)
  | glfwTerminate
  | glfwWindowShouldClose (window : Handle)
  | glfwPollEvents
  | glfwGetKey (window : Handle) (key : Int)
  | abort
deriving DecidableEq, Repr

/-- Outcomes of the external calls: everything the program reads back from the
three libraries, and whether each `std::vector` it builds obtains its storage. -/
structure Env where
  /-- Return value of `glfwInit()`. -/
  glfwInit : Bool
  /-- Pointer returned by `glfwCreateWindow`. -/
  glfwCreateWindow : Handle
  /-- Array returned by `glfwGetRequiredInstanceExtensions`; its length is the
  count written to `glfwExtensionCount`. -/
  glfwGetRequiredInstanceExtensions : List String
  /-- The `layerName` fields of `availableLayers` after the second
  `vkEnumerateInstanceLayerProperties` call; the vector has `layerCount`
  entries, so the length of this list is the count written to `layerCount` by
  the first call. -/
  vkEnumerateInstanceLayerProperties : List String
  /-- Result code of `vkCreateInstance` and handle written to `instance`. -/
  vkCreateInstance : VkResult × Handle
  /-- Result code of `glfwCreateWindowSurface` and handle written to `surface`. -/
  glfwCreateWindowSurface : VkResult × Handle
  /-- Count written to `gpuCount` by the first `vkEnumeratePhysicalDevices` call. -/
  gpuCount : Nat
  /-- Content of `physicalDevices` after the second `vkEnumeratePhysicalDevices` call. -/
  physicalDevices : List Handle
  /-- Result code of `vkCreateDevice` and handle written to `device`. -/
  vkCreateDevice : VkResult × Handle
  /-- Result code of `vmaCreateAllocator` and handle written to `allocator`. -/
  vmaCreateAllocator : VkResult × Handle
  /-- Return value of the `i`-th call of `glfwWindowShouldClose`. -/
  glfwWindowShouldClose : Nat → Bool
  /-- Return value of the `i`-th call of `glfwGetKey(window, GLFW_KEY_ESCAPE)`. -/
  glfwGetKey : Nat → Int
  /-- Whether the range constructor of `extensions` (line 72) obtains storage
  for the required names; `false` makes it throw `std::bad_alloc`. -/
  extensionsAllocated : Bool
  /-- Whether `extensions.push_back` (line 73) obtains storage for the grown
  vector; `false` makes it throw `std::bad_alloc`. -/
  pushBackAllocated : Bool
  /-- Whether the constructor of `validationLayers` (line 76) obtains storage;
  `false` makes it throw `std::bad_alloc`. -/
  validationLayersAllocated : Bool
  /-- Whether `availableLayers(layerCount)` (line 90) obtains storage for
  `layerCount` records; `false` makes it throw `std::bad_alloc`. -/
  availableLayersAllocated : Bool
  /-- Whether `physicalDevices(gpuCount)` (line 142) obtains storage for
  `gpuCount` handles; `false` makes it throw `std::bad_alloc`. -/
  physicalDevicesAllocated : Bool

/-! ## Control flow -/

/-- How control leaves a function of the program. -/
inductive Exit where
  /-- The function returned to its caller. -/
  | normal
  /-- A `std::runtime_error` with this message was thrown. -/
  | threw (what : String)
  /-- The process was ended by `abort()`. -/
  | aborted
  /-- The bound on observed poll-loop iterations was reached inside the loop. -/
  | running
deriving DecidableEq, Repr

/-- The process-wide globals `instance`, `surface`, `window`. -/
structure Globals where
  vkInstance : Handle
  surface : Handle
  window : Handle
deriving DecidableEq, Repr

/-- Initial values of the globals: `VK_NULL_HANDLE`, `VK_NULL_HANDLE`, `nullptr`. -/
def Globals.initial : Globals :=
  { vkInstance := VK_NULL_HANDLE, surface := VK_NULL_HANDLE, window := 0 }

/-- Result of running a piece of the program: globals afterwards, the external
calls issued in order, and how control left. -/
structure Run where
  globals : Globals
  trace : List Call
  exit : Exit
deriving DecidableEq, Repr

/-- Sequencing of statements: the continuation runs only when the first part
returned normally; a throw or abort skips it. -/
def Run.andThen (r : Run) (k : Globals → Run) : Run :=
  match r.exit with
  | Exit.normal =>
    let r2 := k r.globals
    { globals := r2.globals, trace := r.trace ++ r2.trace, exit := r2.exit }
  | _ => r

/-- Body of `VK_CHECK_RESULT(f)` once `f` has been evaluated to `res`: a
non-success result calls `abort()`. -/
def VK_CHECK_RESULT (res : VkResult) : List Call × Exit :=
  if res ≠ VK_SUCCESS then ([Call.abort], Exit.aborted) else ([], Exit.normal)

/-! ## The four stages -/

/-- Embedding of `initWindow`. -/
def initWindow (env : Env) (g : Globals) : Run :=
  if !env.glfwInit then
    { globals := g, trace := [Call.glfwInit false],
      exit := Exit.threw "Failed to initialize GLFW!" }
  else
    let g2 : Globals := { g with window := env.glfwCreateWindow }
    let t : List Call :=
      [Call.glfwInit true,
       Call.glfwWindowHint GLFW_CLIENT_API GLFW_NO_API,
       Call.glfwWindowHint GLFW_RESIZABLE GLFW_FALSE,
       Call.glfwCreateWindow 800 600 "Vulkan Validation" env.glfwCreateWindow]
    if g2.window = 0 then
      { globals := g2, trace := t, exit := Exit.threw "Failed to create GLFW window!" }
    else
      { globals := g2, trace := t, exit := Exit.normal }

/-- Inner loop of `createInstance`: scan `availableLayers` for `layerName`,
stopping at the first entry on which `strcmp` returns `0`. -/
def layerFound (layerName : String) : List String → Bool
  | [] => false
  | layerProperties :: rest =>
    if strcmp layerName layerProperties = 0 then true else layerFound layerName rest

/-- Outer loop of `createInstance`: `layersAvailable` stays `true` unless some
requested layer is not found, at which point the loop breaks with `false`. -/
def layersAvailable (availableLayers : List String) : List String → Bool
  | [] => true
  | layerName :: rest =>
    if !layerFound layerName availableLayers then false
    else layersAvailable availableLayers rest

/-- The local `validationLayers` of `createInstance`. -/
def validationLayers : List String := ["VK_LAYER_KHRONOS_validation"]

/-- The local `extensions` of `createInstance`: the range of required names,
then `push_back` of the debug-utilities name. -/
def extensions (env : Env) : List String :=
  env.glfwGetRequiredInstanceExtensions ++ [VK_EXT_DEBUG_UTILS_EXTENSION_NAME]

/-- The `createInfo` record as it stands when `vkCreateInstance` is called. -/
def instanceCreateInfo (env : Env) : VkInstanceCreateInfo :=
  let createInfo : VkInstanceCreateInfo :=
    { enabledExtensionCount := toUInt32 (extensions env).length,
      ppEnabledExtensionNames := extensions env,
      enabledLayerCount := 0,
      ppEnabledLayerNames := [] }
  if layersAvailable env.vkEnumerateInstanceLayerProperties validationLayers then
    { createInfo with
      enabledLayerCount := toUInt32 validationLayers.length,
      ppEnabledLayerNames := validationLayers }
  else
    { createInfo with enabledLayerCount := 0 }

/-- The exception `std::bad_alloc`, thrown by a `std::vector` that cannot
obtain its storage; it derives from `std::exception`. -/
def bad_alloc : Exit := Exit.threw "std::bad_alloc"

/-- All four vectors of `createInstance` obtain their storage: `extensions`
(nothing to obtain for an empty range), its `push_back`, `validationLayers`,
and `availableLayers` (nothing to obtain when `layerCount` is zero). -/
def Env.instanceVectorsAllocated (env : Env) : Bool :=
  decide
    ((env.glfwGetRequiredInstanceExtensions = [] ∨ env.extensionsAllocated = true) ∧
     env.pushBackAllocated = true ∧
     env.validationLayersAllocated = true ∧
     (env.vkEnumerateInstanceLayerProperties = [] ∨ env.availableLayersAllocated = true))

/-- Embedding of `createInstance`. -/
def createInstance (env : Env) (g : Globals) : Run :=
  let t0 : List Call := [Call.glfwGetRequiredInstanceExtensions]
  if env.glfwGetRequiredInstanceExtensions ≠ [] ∧ env.extensionsAllocated = false then
    { globals := g, trace := t0, exit := bad_alloc }
  else if env.pushBackAllocated = false then
    { globals := g, trace := t0, exit := bad_alloc }
  else if env.validationLayersAllocated = false then
    { globals := g, trace := t0, exit := bad_alloc }
  else
    let layerCount := env.vkEnumerateInstanceLayerProperties.length
    let t1 : List Call := t0 ++ [Call.vkEnumerateInstanceLayerProperties false]
    if layerCount ≠ 0 ∧ env.availableLayersAllocated = false then
      { globals := g, trace := t1, exit := bad_alloc }
    else
      let createInfo := instanceCreateInfo env
      let res := env.vkCreateInstance.1
      let g2 : Globals := { g with vkInstance := env.vkCreateInstance.2 }
      let chk := VK_CHECK_RESULT res
      { globals := g2,
        trace :=
          t1 ++ [Call.vkEnumerateInstanceLayerProperties (decide (layerCount ≠ 0)),
                 Call.vkCreateInstance createInfo res env.vkCreateInstance.2] ++ chk.1,
        exit := chk.2 }

/-- Embedding of `createSurface`. -/
def createSurface (env : Env) (g : Globals) : Run :=
  let res := env.glfwCreateWindowSurface.1
  let g2 : Globals := { g with surface := env.glfwCreateWindowSurface.2 }
  let chk := VK_CHECK_RESULT res
  { globals := g2,
    trace :=
      Call.glfwCreateWindowSurface g.vkInstance g.window res env.glfwCreateWindowSurface.2
        :: chk.1,
    exit := chk.2 }

/-- Embedding of `validateVma(instance)`; the parameter shadows the global. -/
def validateVma (env : Env) (inst : Handle) : List Call × Exit :=
  let gpuCount := env.gpuCount
  if gpuCount = 0 then
    ([Call.vkEnumeratePhysicalDevices inst false], Exit.normal)
  else if env.physicalDevicesAllocated = false then
    ([Call.vkEnumeratePhysicalDevices inst false], bad_alloc)
  else
    let physicalDevice := env.physicalDevices.headD VK_NULL_HANDLE
    let device := env.vkCreateDevice.2
    let t1 : List Call :=
      [Call.vkEnumeratePhysicalDevices inst false,
       Call.vkEnumeratePhysicalDevices inst true,
       Call.vkCreateDevice physicalDevice env.vkCreateDevice.1 device]
    if env.vkCreateDevice.1 ≠ VK_SUCCESS then
      (t1, Exit.normal)
    else
      let allocatorInfo : VmaAllocatorCreateInfo :=
        { physicalDevice := physicalDevice, device := device, vkInstance := inst }
      let result := env.vmaCreateAllocator.1
      let allocator := env.vmaCreateAllocator.2
      let t2 : List Call := [Call.vmaCreateAllocator allocatorInfo result allocator]
      let t3 : List Call :=
        if result = VK_SUCCESS then [Call.vmaDestroyAllocator allocator] else []
      (t1 ++ t2 ++ t3 ++ [Call.vkDestroyDevice device], Exit.normal)

/-- Embedding of `cleanup`. -/
def cleanup (g : Globals) : List Call :=
  (if g.vkInstance ≠ 0 then
    (if g.surface ≠ 0 then [Call.vkDestroySurfaceKHR g.vkInstance g.surface] else [])
      ++ [Call.vkDestroyInstance g.vkInstance]
   else [])
  ++ (if g.window ≠ 0 then [Call.glfwDestroyWindow g.window] else [])
  ++ [Call.glfwTerminate]

/-- The `while` loop of `main`, observed for at most `fuel` evaluations of its
condition; `i` counts the iterations already done. -/
def pollLoop (env : Env) (window : Handle) : Nat → Nat → List Call × Exit
  | 0, _ => ([], Exit.running)
  | fuel + 1, i =>
    if env.glfwWindowShouldClose i then
      ([Call.glfwWindowShouldClose window], Exit.normal)
    else if env.glfwGetKey i = GLFW_PRESS then
      ([Call.glfwWindowShouldClose window, Call.glfwPollEvents,
        Call.glfwGetKey window GLFW_KEY_ESCAPE], Exit.normal)
    else
      let r := pollLoop env window fuel (i + 1)
      ([Call.glfwWindowShouldClose window, Call.glfwPollEvents,
        Call.glfwGetKey window GLFW_KEY_ESCAPE] ++ r.1, r.2)

/-- The statements of the `try` block of `main` up to the end of the loop. -/
def tryBlock (env : Env) (fuel : Nat) : Run :=
  (((initWindow env Globals.initial).andThen (createInstance env)).andThen
    (createSurface env)).andThen fun g =>
      let v := validateVma env g.vkInstance
      let r : Run := { globals := g, trace := v.1, exit := v.2 }
      r.andThen fun g2 =>
        let l := pollLoop env g2.window fuel 0
        { globals := g2, trace := l.1, exit := l.2 }

/-- How the process ends. -/
inductive Outcome where
  /-- The function `main` returned this exit code. -/
  | returned (code : Int)
  /-- The process was ended by `abort()`. -/
  | aborted
  /-- The program is still in its poll loop after the observed iterations. -/
  | running
deriving DecidableEq, Repr

/-- Embedding of `main`: the `try` block followed by `cleanup(); return 0;`, and
the `catch` handler `cleanup(); return -1;`. -/
def main (env : Env) (fuel : Nat) : List Call × Outcome :=
  let r := tryBlock env fuel
  match r.exit with
  | Exit.normal => (r.trace ++ cleanup r.globals, Outcome.returned 0)
  | Exit.threw _ => (r.trace ++ cleanup r.globals, Outcome.returned (-1))
  | Exit.aborted => (r.trace, Outcome.aborted)
  | Exit.running => (r.trace, Outcome.running)

/-! ## Observations on call sequences -/

/-- Handles of the logical devices created in a call sequence: the output
handles of the `vkCreateDevice` calls that returned `VK_SUCCESS`. -/
def devicesCreated (t : List Call) : List Handle :=
  t.filterMap fun c =>
    match c with
    | Call.vkCreateDevice _ res d => if res = VK_SUCCESS then some d else none
    | _ => none

/-- Handles passed to `vkDestroyDevice` in a call sequence. -/
def devicesDestroyed (t : List Call) : List Handle :=
  t.filterMap fun c =>
    match c with
    | Call.vkDestroyDevice d => some d
    | _ => none

/-- Handles of the allocators created in a call sequence: the output handles of
the `vmaCreateAllocator` calls that returned `VK_SUCCESS`. -/
def allocatorsCreated (t : List Call) : List Handle :=
  t.filterMap fun c =>
    match c with
    | Call.vmaCreateAllocator _ res a => if res = VK_SUCCESS then some a else none
    | _ => none

/-- Handles passed to `vmaDestroyAllocator` in a call sequence. -/
def allocatorsDestroyed (t : List Call) : List Handle :=
  t.filterMap fun c =>
    match c with
    | Call.vmaDestroyAllocator a => some a
    | _ => none

/-- The `createInfo` records passed to `vkCreateInstance` in a call sequence. -/
def instanceCreateInfos (t : List Call) : List VkInstanceCreateInfo :=
  t.filterMap fun c =>
    match c with
    | Call.vkCreateInstance ci _ _ => some ci
    | _ => none

/-- Handles of the windows created in a call sequence: the non-null pointers
returned by `glfwCreateWindow`. -/
def windowsCreated (t : List Call) : List Handle :=
  t.filterMap fun c =>
    match c with
    | Call.glfwCreateWindow _ _ _ w => if w ≠ 0 then some w else none
    | _ => none

/-- Handles passed to `glfwDestroyWindow` in a call sequence. -/
def windowsDestroyed (t : List Call) : List Handle :=
  t.filterMap fun c =>
    match c with
    | Call.glfwDestroyWindow w => some w
    | _ => none

/-- Handles of the instances created in a call sequence: the output handles of
the `vkCreateInstance` calls that returned `VK_SUCCESS`. -/
def instancesCreated (t : List Call) : List Handle :=
  t.filterMap fun c =>
    match c with
    | Call.vkCreateInstance _ res i => if res = VK_SUCCESS then some i else none
    | _ => none

/-- Handles passed to `vkDestroyInstance` in a call sequence. -/
def instancesDestroyed (t : List Call) : List Handle :=
  t.filterMap fun c =>
    match c with
    | Call.vkDestroyInstance i => some i
    | _ => none

/-- Calls that create a logical device or an allocator. -/
def Call.isDeviceOrAllocatorCreate : Call → Bool
  | Call.vkCreateDevice _ _ _ => true
  | Call.vmaCreateAllocator _ _ _ => true
  | _ => false

/-- Calls that destroy a handle. -/
def Call.isDestroy : Call → Bool
  | Call.vmaDestroyAllocator _ => true
  | Call.vkDestroyDevice _ => true
  | Call.vkDestroySurfaceKHR _ _ => true
  | Call.vkDestroyInstance _ => true
  | Call.glfwDestroyWindow _ => true
  | _ => false

/-- Calls that tear down a whole library. -/
def Call.isTeardown : Call → Bool
  | Call.glfwTerminate => true
  | _ => false

/-- Creation calls checked by `VK_CHECK_RESULT` that returned a failure code:
`vkCreateInstance` and `glfwCreateWindowSurface`. -/
def Call.isFailedCheckedCreate : Call → Bool
  | Call.vkCreateInstance _ res _ => decide (res ≠ VK_SUCCESS)
  | Call.glfwCreateWindowSurface _ _ res _ => decide (res ≠ VK_SUCCESS)
  | _ => false

/-- Calls that take the logical device `d` as an argument. -/
def Call.usesDevice (d : Handle) : Call → Bool
  | Call.vmaCreateAllocator info _ _ => decide (info.device = d)
  | Call.vkDestroyDevice d2 => decide (d2 = d)
  | _ => false

/-- Calls that take the allocator `a` as an argument. -/
def Call.usesAllocator (a : Handle) : Call → Bool
  | Call.vmaDestroyAllocator a2 => decide (a2 = a)
  | _ => false

/-- The calls that follow the first occurrence of `x` in a call sequence. -/
def callsAfter (x : Call) : List Call → List Call
  | [] => []
  | c :: rest => if c = x then rest else callsAfter x rest

/-- The calls that precede the first occurrence of `x` in a call sequence. -/
def callsBefore (x : Call) : List Call → List Call
  | [] => []
  | c :: rest => if c = x then [] else c :: callsBefore x rest

/-- The calls of the three creation stages when all of them succeed. -/
def stagesTrace (env : Env) : List Call :=
  [Call.glfwInit true,
   Call.glfwWindowHint GLFW_CLIENT_API GLFW_NO_API,
   Call.glfwWindowHint GLFW_RESIZABLE GLFW_FALSE,
   Call.glfwCreateWindow 800 600 "Vulkan Validation" env.glfwCreateWindow,
   Call.glfwGetRequiredInstanceExtensions,
   Call.vkEnumerateInstanceLayerProperties false,
   Call.vkEnumerateInstanceLayerProperties
     (decide (env.vkEnumerateInstanceLayerProperties.length ≠ 0)),
   Call.vkCreateInstance (instanceCreateInfo env) VK_SUCCESS env.vkCreateInstance.2,
   Call.glfwCreateWindowSurface env.vkCreateInstance.2 env.glfwCreateWindow
     VK_SUCCESS env.glfwCreateWindowSurface.2]

/-! ## Sample environments -/

/-- A host on which every external call succeeds and the escape key is pressed
in the third iteration of the loop. -/
def sampleEnv : Env :=
  { glfwInit := true,
    glfwCreateWindow := 7,
    glfwGetRequiredInstanceExtensions := ["VK_KHR_surface", "VK_KHR_xcb_surface"],
    vkEnumerateInstanceLayerProperties := ["VK_LAYER_MESA_overlay", "VK_LAYER_KHRONOS_validation"],
    vkCreateInstance := (0, 11),
    glfwCreateWindowSurface := (0, 13),
    gpuCount := 1,
    physicalDevices := [3],
    vkCreateDevice := (0, 5),
    vmaCreateAllocator := (0, 9),
    glfwWindowShouldClose := fun _ => false,
    glfwGetKey := fun i => if i = 2 then GLFW_PRESS else 0,
    extensionsAllocated := true,
    pushBackAllocated := true,
    validationLayersAllocated := true,
    availableLayersAllocated := true,
    physicalDevicesAllocated := true }

/-- The sample host, except that the windowing subsystem fails to initialise. -/
def initFailureEnv : Env := { sampleEnv with glfwInit := false }

/-- The sample host, except that instance creation fails. -/
def instanceFailureEnv : Env := { sampleEnv with vkCreateInstance := (-3, 0) }

/-- The sample host, except that surface creation fails. -/
def surfaceFailureEnv : Env := { sampleEnv with glfwCreateWindowSurface := (-3, 0) }

/-- The sample host with every soft condition at once: no validation layer and
no physical device. -/
def softFailureEnv : Env :=
  { sampleEnv with vkEnumerateInstanceLayerProperties := [], gpuCount := 0 }

/-- The sample host, except that the runtime reports `4294967295` physical
devices and the vector of that many handles cannot obtain its storage. -/
def deviceVectorFailureEnv : Env :=
  { sampleEnv with gpuCount := 4294967295, physicalDevicesAllocated := false }

/-- The sample host, except that the vector of available layers cannot obtain
its storage. -/
def layerVectorFailureEnv : Env :=
  { sampleEnv with availableLayersAllocated := false }

/-! ## The allocator validator -/

/-- No device: the only call is the count query. -/
theorem validateVma_noDevice (env : Env) (inst : Handle) (h : env.gpuCount = 0) :
    validateVma env inst = ([Call.vkEnumeratePhysicalDevices inst false], Exit.normal) := by
  simp [validateVma, h]

/-- The vector of device handles cannot be allocated: `std::bad_alloc` leaves
the function after the count query. -/
theorem validateVma_vectorFailed (env : Env) (inst : Handle) (h : env.gpuCount ≠ 0)
    (hp : env.physicalDevicesAllocated = false) :
    validateVma env inst = ([Call.vkEnumeratePhysicalDevices inst false], bad_alloc) := by
  simp [validateVma, h, hp]

/-- Device creation fails: nothing is created and nothing is destroyed. -/
theorem validateVma_deviceFailed (env : Env) (inst : Handle) (h : env.gpuCount ≠ 0)
    (hp : env.physicalDevicesAllocated = true) (hd : env.vkCreateDevice.1 ≠ VK_SUCCESS) :
    validateVma env inst =
      ([Call.vkEnumeratePhysicalDevices inst false,
        Call.vkEnumeratePhysicalDevices inst true,
        Call.vkCreateDevice (env.physicalDevices.headD VK_NULL_HANDLE)
          env.vkCreateDevice.1 env.vkCreateDevice.2], Exit.normal) := by
  simp [validateVma, h, hp, hd]

/-- Allocator creation fails: the device is destroyed, no allocator call follows. -/
theorem validateVma_allocatorFailed (env : Env) (inst : Handle) (h : env.gpuCount ≠ 0)
    (hp : env.physicalDevicesAllocated = true)
    (hd : env.vkCreateDevice.1 = VK_SUCCESS) (ha : env.vmaCreateAllocator.1 ≠ VK_SUCCESS) :
    validateVma env inst =
      ([Call.vkEnumeratePhysicalDevices inst false,
        Call.vkEnumeratePhysicalDevices inst true,
        Call.vkCreateDevice (env.physicalDevices.headD VK_NULL_HANDLE)
          VK_SUCCESS env.vkCreateDevice.2,
        Call.vmaCreateAllocator
          { physicalDevice := env.physicalDevices.headD VK_NULL_HANDLE,
            device := env.vkCreateDevice.2, vkInstance := inst }
          env.vmaCreateAllocator.1 env.vmaCreateAllocator.2,
        Call.vkDestroyDevice env.vkCreateDevice.2], Exit.normal) := by
  simp [validateVma, h, hp, hd, ha]

/-- Everything succeeds: allocator destroyed, then device destroyed. -/
theorem validateVma_success (env : Env) (inst : Handle) (h : env.gpuCount ≠ 0)
    (hp : env.physicalDevicesAllocated = true)
    (hd : env.vkCreateDevice.1 = VK_SUCCESS) (ha : env.vmaCreateAllocator.1 = VK_SUCCESS) :
    validateVma env inst =
      ([Call.vkEnumeratePhysicalDevices inst false,
        Call.vkEnumeratePhysicalDevices inst true,
        Call.vkCreateDevice (env.physicalDevices.headD VK_NULL_HANDLE)
          VK_SUCCESS env.vkCreateDevice.2,
        Call.vmaCreateAllocator
          { physicalDevice := env.physicalDevices.headD VK_NULL_HANDLE,
            device := env.vkCreateDevice.2, vkInstance := inst }
          VK_SUCCESS env.vmaCreateAllocator.2,
        Call.vmaDestroyAllocator env.vmaCreateAllocator.2,
        Call.vkDestroyDevice env.vkCreateDevice.2], Exit.normal) := by
  simp [validateVma, h, hp, hd, ha]

/-- The validator returns to its caller unless the vector of device handles
cannot be allocated. -/
theorem validateVma_exit (env : Env) (inst : Handle)
    (h : env.gpuCount = 0 ∨ env.physicalDevicesAllocated = true) :
    (validateVma env inst).2 = Exit.normal := by
  by_cases h0 : env.gpuCount = 0
  · rw [validateVma_noDevice env inst h0]
  · have hp : env.physicalDevicesAllocated = true := by
      rcases h with h | h
      · exact absurd h h0
      · exact h
    by_cases hd : env.vkCreateDevice.1 = VK_SUCCESS
    · by_cases ha : env.vmaCreateAllocator.1 = VK_SUCCESS
      · rw [validateVma_success env inst h0 hp hd ha]
      · rw [validateVma_allocatorFailed env inst h0 hp hd ha]
    · rw [validateVma_deviceFailed env inst h0 hp hd]

/-- The validator never calls `abort()`. -/
theorem validateVma_no_abort (env : Env) (inst : Handle) :
    Call.abort ∉ (validateVma env inst).1 := by
  simp only [validateVma]
  split_ifs <;> simp

/-- C1: on every combination of outcomes of the external calls, every logical
device `validateVma` created is passed to exactly one `vkDestroyDevice` call,
every allocator it created is passed to exactly one `vmaDestroyAllocator` call,
and nothing else is passed to either destroy call.  The function returns to its
caller on all three exit points (zero devices, device-creation failure,
allocator-creation failure or success); its only other exit is the
`std::bad_alloc` of the device-handle vector, before anything is created. -/
theorem validateVma_destroys_exactly_what_it_creates (env : Env) (inst : Handle) :
    ((env.gpuCount = 0 ∨ env.physicalDevicesAllocated = true) →
      (validateVma env inst).2 = Exit.normal) ∧
    (∀ d ∈ devicesCreated (validateVma env inst).1,
      (devicesDestroyed (validateVma env inst).1).count d = 1) ∧
    (∀ a ∈ allocatorsCreated (validateVma env inst).1,
      (allocatorsDestroyed (validateVma env inst).1).count a = 1) ∧
    devicesDestroyed (validateVma env inst).1 = devicesCreated (validateVma env inst).1 ∧
    allocatorsDestroyed (validateVma env inst).1
      = allocatorsCreated (validateVma env inst).1 ∧
    ((validateVma env inst).2 = Exit.normal ∨
      ((validateVma env inst).2 = bad_alloc ∧
        devicesCreated (validateVma env inst).1 = [] ∧
        allocatorsCreated (validateVma env inst).1 = [])) := by
  refine ⟨validateVma_exit env inst, ?_⟩
  by_cases h : env.gpuCount = 0
  · rw [validateVma_noDevice env inst h]
    simp [devicesCreated, devicesDestroyed, allocatorsCreated, allocatorsDestroyed]
  · by_cases hp : env.physicalDevicesAllocated = true
    · by_cases hd : env.vkCreateDevice.1 = VK_SUCCESS
      · by_cases ha : env.vmaCreateAllocator.1 = VK_SUCCESS
        · rw [validateVma_success env inst h hp hd ha]
          simp [devicesCreated, devicesDestroyed, allocatorsCreated, allocatorsDestroyed]
        · rw [validateVma_allocatorFailed env inst h hp hd ha]
          simp [devicesCreated, devicesDestroyed, allocatorsCreated, allocatorsDestroyed, ha]
      · rw [validateVma_deviceFailed env inst h hp hd]
        simp [devicesCreated, devicesDestroyed, allocatorsCreated, allocatorsDestroyed, hd]
    · have hp2 : env.physicalDevicesAllocated = false := by simpa using hp
      rw [validateVma_vectorFailed env inst h hp2]
      simp [devicesCreated, devicesDestroyed, allocatorsCreated, allocatorsDestroyed]

/-- Instance of C1 on the sample host: device `5` is created and destroyed once. -/
theorem validateVma_destroys_exactly_what_it_creates_witness :
    (validateVma sampleEnv 11).2 = Exit.normal ∧
    5 ∈ devicesCreated (validateVma sampleEnv 11).1 ∧
    (devicesDestroyed (validateVma sampleEnv 11).1).count 5 = 1 ∧
    9 ∈ allocatorsCreated (validateVma sampleEnv 11).1 ∧
    (allocatorsDestroyed (validateVma sampleEnv 11).1).count 9 = 1 :=
  ⟨(validateVma_destroys_exactly_what_it_creates sampleEnv 11).1 (Or.inr rfl),
   by decide,
   (validateVma_destroys_exactly_what_it_creates sampleEnv 11).2.1 5 (by decide),
   by decide,
   (validateVma_destroys_exactly_what_it_creates sampleEnv 11).2.2.1 9 (by decide)⟩

/-- C4: when the device count is zero, `validateVma` returns to its caller
(no throw, no abort) after the count query alone: it calls neither
`vkCreateDevice` nor `vmaCreateAllocator`, nor any destroy function. -/
theorem validateVma_zero_devices (env : Env) (inst : Handle) (h : env.gpuCount = 0) :
    (validateVma env inst).2 = Exit.normal ∧
    (validateVma env inst).1 = [Call.vkEnumeratePhysicalDevices inst false] ∧
    (∀ c ∈ (validateVma env inst).1,
      c.isDeviceOrAllocatorCreate = false ∧ c.isDestroy = false ∧ c ≠ Call.abort) := by
  rw [validateVma_noDevice env inst h]
  simp [Call.isDeviceOrAllocatorCreate, Call.isDestroy]

/-- Instance of C4 on a host without any physical device. -/
theorem validateVma_zero_devices_witness :
    (validateVma { sampleEnv with gpuCount := 0 } 11).2 = Exit.normal ∧
    (validateVma { sampleEnv with gpuCount := 0 } 11).1
      = [Call.vkEnumeratePhysicalDevices 11 false] ∧
    (∀ c ∈ (validateVma { sampleEnv with gpuCount := 0 } 11).1,
      c.isDeviceOrAllocatorCreate = false ∧ c.isDestroy = false ∧ c ≠ Call.abort) :=
  validateVma_zero_devices { sampleEnv with gpuCount := 0 } 11 rfl

/-- C10: in every run of `validateVma` in which `vmaCreateAllocator` succeeds,
the allocator is destroyed exactly once, the logical device it was bound to is
destroyed exactly once, the `vmaDestroyAllocator` call comes strictly before the
`vkDestroyDevice` call, and no call after either destruction takes the destroyed
allocator or device as an argument. -/
theorem validateVma_allocator_destroyed_before_device (env : Env) (inst : Handle)
    (info : VmaAllocatorCreateInfo) (a : Handle)
    (h : Call.vmaCreateAllocator info VK_SUCCESS a ∈ (validateVma env inst).1) :
    (validateVma env inst).1.count (Call.vmaDestroyAllocator a) = 1 ∧
    (validateVma env inst).1.count (Call.vkDestroyDevice info.device) = 1 ∧
    Call.vkDestroyDevice info.device
      ∈ callsAfter (Call.vmaDestroyAllocator a) (validateVma env inst).1 ∧
    Call.vmaDestroyAllocator a
      ∉ callsAfter (Call.vkDestroyDevice info.device) (validateVma env inst).1 ∧
    (∀ c ∈ callsAfter (Call.vmaDestroyAllocator a) (validateVma env inst).1,
      c.usesAllocator a = false) ∧
    (∀ c ∈ callsAfter (Call.vkDestroyDevice info.device) (validateVma env inst).1,
      c.usesDevice info.device = false ∧ c.usesAllocator a = false) := by
  by_cases h0 : env.gpuCount = 0
  · rw [validateVma_noDevice env inst h0] at h
    simp at h
  · by_cases hp : env.physicalDevicesAllocated = true
    · by_cases hd : env.vkCreateDevice.1 = VK_SUCCESS
      · by_cases ha : env.vmaCreateAllocator.1 = VK_SUCCESS
        · rw [validateVma_success env inst h0 hp hd ha] at h ⊢
          simp at h
          obtain ⟨hinfo, ha2⟩ := h
          subst hinfo
          subst ha2
          simp [callsAfter, Call.usesAllocator, Call.usesDevice]
        · rw [validateVma_allocatorFailed env inst h0 hp hd ha] at h
          simp at h
          exact absurd h.2.1.symm ha
      · rw [validateVma_deviceFailed env inst h0 hp hd] at h
        simp at h
    · have hp2 : env.physicalDevicesAllocated = false := by simpa using hp
      rw [validateVma_vectorFailed env inst h0 hp2] at h
      simp at h

/-- Instance of C10 on the sample host: allocator `9` on device `5`. -/
theorem validateVma_allocator_destroyed_before_device_witness :
    Call.vmaCreateAllocator { physicalDevice := 3, device := 5, vkInstance := 11 } VK_SUCCESS 9
      ∈ (validateVma sampleEnv 11).1 ∧
    Call.vkDestroyDevice 5
      ∈ callsAfter (Call.vmaDestroyAllocator 9) (validateVma sampleEnv 11).1 :=
  ⟨by decide,
   (validateVma_allocator_destroyed_before_device sampleEnv 11
      { physicalDevice := 3, device := 5, vkInstance := 11 } 9 (by decide)).2.2.1⟩

/-! ## Teardown -/

/-- C2: in every state of the globals, the destroy calls of `cleanup` occur in
reverse creation order (surface, then instance, then window), the sequence ends
with the single windowing-subsystem teardown, a created window is destroyed
immediately before that teardown, and no null handle is passed to a destroy
call.  A created instance is destroyed exactly once, a created surface exactly
once before its instance, a created window exactly once after the instance;
the surface destroy needs the instance handle, so without an instance no
surface call is issued. -/
theorem cleanup_reverse_creation_order (g : Globals) :
    (cleanup g).Sublist
      [Call.vkDestroySurfaceKHR g.vkInstance g.surface, Call.vkDestroyInstance g.vkInstance,
       Call.glfwDestroyWindow g.window, Call.glfwTerminate] ∧
    (cleanup g).getLast? = some Call.glfwTerminate ∧
    (g.window ≠ 0 → callsAfter (Call.glfwDestroyWindow g.window) (cleanup g)
      = [Call.glfwTerminate]) ∧
    (g.surface = 0 → ∀ i s, Call.vkDestroySurfaceKHR i s ∉ cleanup g) ∧
    (g.vkInstance = 0 → ∀ i, Call.vkDestroyInstance i ∉ cleanup g) ∧
    (g.window = 0 → ∀ w, Call.glfwDestroyWindow w ∉ cleanup g) ∧
    (g.vkInstance ≠ 0 → (cleanup g).count (Call.vkDestroyInstance g.vkInstance) = 1) ∧
    (g.vkInstance ≠ 0 → g.surface ≠ 0 →
      (cleanup g).count (Call.vkDestroySurfaceKHR g.vkInstance g.surface) = 1 ∧
      Call.vkDestroyInstance g.vkInstance
        ∈ callsAfter (Call.vkDestroySurfaceKHR g.vkInstance g.surface) (cleanup g)) ∧
    (g.window ≠ 0 → (cleanup g).count (Call.glfwDestroyWindow g.window) = 1) ∧
    (g.vkInstance ≠ 0 → g.window ≠ 0 →
      Call.glfwDestroyWindow g.window
        ∈ callsAfter (Call.vkDestroyInstance g.vkInstance) (cleanup g)) ∧
    (cleanup g).count Call.glfwTerminate = 1 ∧
    (g.vkInstance = 0 → ∀ i s, Call.vkDestroySurfaceKHR i s ∉ cleanup g) ∧
    instancesDestroyed (cleanup g) = (if g.vkInstance ≠ 0 then [g.vkInstance] else []) ∧
    windowsDestroyed (cleanup g) = (if g.window ≠ 0 then [g.window] else []) := by
  by_cases hi : g.vkInstance = 0 <;> by_cases hs : g.surface = 0 <;>
    by_cases hw : g.window = 0 <;>
    simp [cleanup, hi, hs, hw, callsAfter, instancesDestroyed, windowsDestroyed]

/-- Instance of C2 with all three handles created, and with no surface. -/
theorem cleanup_reverse_creation_order_witness :
    cleanup { vkInstance := 11, surface := 13, window := 7 }
      = [Call.vkDestroySurfaceKHR 11 13, Call.vkDestroyInstance 11,
         Call.glfwDestroyWindow 7, Call.glfwTerminate] ∧
    callsAfter (Call.glfwDestroyWindow 7) (cleanup { vkInstance := 11, surface := 13, window := 7 })
      = [Call.glfwTerminate] ∧
    (cleanup { vkInstance := 11, surface := 0, window := 7 }).count (Call.vkDestroyInstance 11)
      = 1 ∧
    (cleanup { vkInstance := 11, surface := 13, window := 7 }).count
      (Call.vkDestroySurfaceKHR 11 13) = 1 :=
  ⟨by decide,
   (cleanup_reverse_creation_order { vkInstance := 11, surface := 13, window := 7 }).2.2.1
     (by decide),
   (cleanup_reverse_creation_order { vkInstance := 11, surface := 0, window := 7 }).2.2.2.2.2.2.1
     (by decide),
   ((cleanup_reverse_creation_order
      { vkInstance := 11, surface := 13, window := 7 }).2.2.2.2.2.2.2.1
     (by decide) (by decide)).1⟩

/-! ## The instance factory -/

/-- The comparison `strcmp(a, b) == 0` holds exactly for equal names. -/
theorem strcmp_eq_zero_iff (a b : String) : strcmp a b = 0 ↔ a = b := by
  unfold strcmp
  split_ifs <;> simp_all

/-- The inner loop finds a name exactly when it is in the list. -/
theorem layerFound_iff (layerName : String) (available : List String) :
    layerFound layerName available = true ↔ layerName ∈ available := by
  induction available with
  | nil => simp [layerFound]
  | cons p rest ih =>
    by_cases hp : layerName = p
    · subst hp
      simp [layerFound, (strcmp_eq_zero_iff layerName layerName).2 rfl]
    · have hne : strcmp layerName p ≠ 0 := fun h => hp ((strcmp_eq_zero_iff layerName p).1 h)
      simp [layerFound, hne, hp, ih]

/-- With the single requested layer, the outer loop reduces to one search. -/
theorem layersAvailable_validationLayers (available : List String) :
    layersAvailable available validationLayers
      = layerFound "VK_LAYER_KHRONOS_validation" available := by
  cases hf : layerFound "VK_LAYER_KHRONOS_validation" available <;>
    simp [layersAvailable, validationLayers, hf]

/-- When its vectors are allocated, `createInstance` reaches the
instance-creation call. -/
theorem createInstance_allocated (env : Env) (g : Globals)
    (h : env.instanceVectorsAllocated = true) :
    createInstance env g =
      { globals := { g with vkInstance := env.vkCreateInstance.2 },
        trace :=
          [Call.glfwGetRequiredInstanceExtensions,
           Call.vkEnumerateInstanceLayerProperties false,
           Call.vkEnumerateInstanceLayerProperties
             (decide (env.vkEnumerateInstanceLayerProperties.length ≠ 0)),
           Call.vkCreateInstance (instanceCreateInfo env) env.vkCreateInstance.1
             env.vkCreateInstance.2] ++ (VK_CHECK_RESULT env.vkCreateInstance.1).1,
        exit := (VK_CHECK_RESULT env.vkCreateInstance.1).2 } := by
  simp only [Env.instanceVectorsAllocated, decide_eq_true_eq] at h
  obtain ⟨h1, h2, h3, h4⟩ := h
  have c1 : ¬ (env.glfwGetRequiredInstanceExtensions ≠ [] ∧ env.extensionsAllocated = false) := by
    rintro ⟨hne, hf⟩
    rcases h1 with h1 | h1
    · exact hne h1
    · rw [hf] at h1
      exact absurd h1 (by decide)
  have c4 : ¬ (env.vkEnumerateInstanceLayerProperties.length ≠ 0 ∧
      env.availableLayersAllocated = false) := by
    rintro ⟨hne, hf⟩
    rcases h4 with h4 | h4
    · exact hne (by simp [h4])
    · rw [hf] at h4
      exact absurd h4 (by decide)
  simp only [createInstance, c1, c4, h2, h3, if_false, Bool.true_eq_false, List.append_assoc,
    List.singleton_append, List.cons_append, List.nil_append]

/-- When one of its vectors cannot be allocated, `createInstance` throws
`std::bad_alloc` before the instance-creation call and leaves the globals
untouched. -/
theorem createInstance_not_allocated (env : Env) (g : Globals)
    (h : env.instanceVectorsAllocated = false) :
    (createInstance env g).exit = bad_alloc ∧
    (createInstance env g).globals = g ∧
    ((createInstance env g).trace = [Call.glfwGetRequiredInstanceExtensions] ∨
     (createInstance env g).trace =
       [Call.glfwGetRequiredInstanceExtensions,
        Call.vkEnumerateInstanceLayerProperties false]) := by
  simp only [Env.instanceVectorsAllocated, decide_eq_false_iff_not] at h
  simp only [createInstance]
  split_ifs with c1 c2 c3 c4
  · simp
  · simp
  · simp
  · simp
  · exfalso
    apply h
    refine ⟨?_, by simpa using c2, by simpa using c3, ?_⟩
    · by_cases hr : env.glfwGetRequiredInstanceExtensions = []
      · exact Or.inl hr
      · right
        by_contra hx
        exact c1 ⟨hr, by simpa using hx⟩
    · by_cases hl : env.vkEnumerateInstanceLayerProperties = []
      · exact Or.inl hl
      · right
        by_contra hx
        exact c4 ⟨by simpa using hl, by simpa using hx⟩

/-- The records passed to `vkCreateInstance`: one, unless a vector could not be
allocated. -/
theorem instanceCreateInfos_createInstance (env : Env) (g : Globals) :
    instanceCreateInfos (createInstance env g).trace =
      if env.instanceVectorsAllocated = true then [instanceCreateInfo env] else [] := by
  by_cases h : env.instanceVectorsAllocated = true
  · rw [createInstance_allocated env g h, if_pos h]
    simp only [VK_CHECK_RESULT]
    split_ifs <;> simp [instanceCreateInfos]
  · have hf : env.instanceVectorsAllocated = false := by simpa using h
    rw [if_neg h]
    rcases (createInstance_not_allocated env g hf).2.2 with ht | ht <;>
      simp [ht, instanceCreateInfos]

/-- No `abort()` and no other call stands between the layer query and the
instance-creation call. -/
theorem createInstance_callsBefore (env : Env) (g : Globals)
    (h : env.instanceVectorsAllocated = true) :
    callsBefore
      (Call.vkCreateInstance (instanceCreateInfo env) env.vkCreateInstance.1
        env.vkCreateInstance.2) (createInstance env g).trace
      = [Call.glfwGetRequiredInstanceExtensions,
         Call.vkEnumerateInstanceLayerProperties false,
         Call.vkEnumerateInstanceLayerProperties
           (decide (env.vkEnumerateInstanceLayerProperties.length ≠ 0))] := by
  rw [createInstance_allocated env g h]
  simp [callsBefore]

/-- The layer fields of the record built by `createInstance`, by presence of
the validation layer among the available layers. -/
theorem instanceCreateInfo_layers (env : Env) :
    ("VK_LAYER_KHRONOS_validation" ∈ env.vkEnumerateInstanceLayerProperties →
      (instanceCreateInfo env).enabledLayerCount = 1 ∧
      (instanceCreateInfo env).ppEnabledLayerNames = ["VK_LAYER_KHRONOS_validation"]) ∧
    ("VK_LAYER_KHRONOS_validation" ∉ env.vkEnumerateInstanceLayerProperties →
      (instanceCreateInfo env).enabledLayerCount = 0) := by
  constructor
  · intro h
    have hf : layersAvailable env.vkEnumerateInstanceLayerProperties validationLayers = true := by
      rw [layersAvailable_validationLayers]
      exact (layerFound_iff _ _).2 h
    simp only [instanceCreateInfo, hf, if_true]
    simp [validationLayers, toUInt32]
  · intro h
    have hf : layersAvailable env.vkEnumerateInstanceLayerProperties validationLayers
        = false := by
      rw [layersAvailable_validationLayers]
      cases hb : layerFound "VK_LAYER_KHRONOS_validation" env.vkEnumerateInstanceLayerProperties
      · rfl
      · exact absurd ((layerFound_iff _ _).1 hb) h
    simp [instanceCreateInfo, hf]

/-- The extension fields of the record built by `createInstance`. -/
theorem instanceCreateInfo_extensions (env : Env) :
    (instanceCreateInfo env).ppEnabledExtensionNames = extensions env ∧
    (instanceCreateInfo env).enabledExtensionCount = toUInt32 (extensions env).length := by
  simp only [instanceCreateInfo]
  split_ifs <;> exact ⟨rfl, rfl⟩

/-- C5: for every list of available layers, every record `createInstance`
passes to `vkCreateInstance` enables exactly `["VK_LAYER_KHRONOS_validation"]`
when that name occurs among the available layers, and has layer count `0`
otherwise.  Once the layer enumeration is complete (the vectors of the function
are allocated), `vkCreateInstance` is called exactly once, and in the absent
case no `abort()` comes before that call, nothing is thrown, and the function
returns normally when instance creation succeeds.  If a vector cannot be
allocated, `std::bad_alloc` is thrown and no record is passed. -/
theorem createInstance_enabled_layers (env : Env) (g : Globals) :
    (∀ ci ∈ instanceCreateInfos (createInstance env g).trace,
      ("VK_LAYER_KHRONOS_validation" ∈ env.vkEnumerateInstanceLayerProperties →
        ci.enabledLayerCount = 1 ∧
        ci.ppEnabledLayerNames = ["VK_LAYER_KHRONOS_validation"]) ∧
      ("VK_LAYER_KHRONOS_validation" ∉ env.vkEnumerateInstanceLayerProperties →
        ci.enabledLayerCount = 0)) ∧
    (env.instanceVectorsAllocated = true →
      ∃ ci, instanceCreateInfos (createInstance env g).trace = [ci] ∧
        Call.vkCreateInstance ci env.vkCreateInstance.1 env.vkCreateInstance.2
          ∈ (createInstance env g).trace ∧
        ("VK_LAYER_KHRONOS_validation" ∈ env.vkEnumerateInstanceLayerProperties →
          ci.enabledLayerCount = 1 ∧
          ci.ppEnabledLayerNames = ["VK_LAYER_KHRONOS_validation"]) ∧
        ("VK_LAYER_KHRONOS_validation" ∉ env.vkEnumerateInstanceLayerProperties →
          ci.enabledLayerCount = 0 ∧
          Call.abort ∉ callsBefore
            (Call.vkCreateInstance ci env.vkCreateInstance.1 env.vkCreateInstance.2)
            (createInstance env g).trace ∧
          (∀ w, (createInstance env g).exit ≠ Exit.threw w) ∧
          (env.vkCreateInstance.1 = VK_SUCCESS →
            (createInstance env g).exit = Exit.normal))) ∧
    (env.instanceVectorsAllocated = false →
      (createInstance env g).exit = bad_alloc ∧
      instanceCreateInfos (createInstance env g).trace = []) := by
  refine ⟨?_, ?_, ?_⟩
  · intro ci hci
    rw [instanceCreateInfos_createInstance] at hci
    split_ifs at hci
    · rw [List.mem_singleton] at hci
      subst hci
      exact instanceCreateInfo_layers env
    · simp at hci
  · intro hAlloc
    refine ⟨instanceCreateInfo env, ?_, ?_, (instanceCreateInfo_layers env).1, ?_⟩
    · rw [instanceCreateInfos_createInstance, if_pos hAlloc]
    · rw [createInstance_allocated env g hAlloc]
      simp
    · intro h
      refine ⟨(instanceCreateInfo_layers env).2 h, ?_, ?_, ?_⟩
      · rw [createInstance_callsBefore env g hAlloc]
        simp
      · intro w
        rw [createInstance_allocated env g hAlloc]
        simp only [VK_CHECK_RESULT]
        split_ifs <;> simp
      · intro hs
        rw [createInstance_allocated env g hAlloc]
        simp [VK_CHECK_RESULT, hs]
  · intro hf
    refine ⟨(createInstance_not_allocated env g hf).1, ?_⟩
    rw [instanceCreateInfos_createInstance]
    simp [hf]

/-- Instance of C5 on a host without the validation layer. -/
theorem createInstance_enabled_layers_witness :
    ∃ ci,
      instanceCreateInfos
        (createInstance { sampleEnv with vkEnumerateInstanceLayerProperties := ["VK_LAYER_MESA_overlay"] }
          Globals.initial).trace = [ci] ∧
      ci.enabledLayerCount = 0 := by
  obtain ⟨ci, h1, _, _, h4⟩ :=
    (createInstance_enabled_layers
      { sampleEnv with vkEnumerateInstanceLayerProperties := ["VK_LAYER_MESA_overlay"] }
      Globals.initial).2.1 (by decide)
  exact ⟨ci, h1, (h4 (by decide)).1⟩

/-- C8: for every list of platform-required extensions, the extension array of
every record `createInstance` passes to `vkCreateInstance` is that list, in
order, followed by the debug-utilities name as last element; its length is the
required count plus one, which is also the value of the 32-bit count field
whenever it fits.  Once the vectors of the function are allocated exactly one
record is passed, and its array is the same whatever layers the host reports. -/
theorem createInstance_extension_list (env : Env) (g : Globals) :
    (∀ ci ∈ instanceCreateInfos (createInstance env g).trace,
      ci.ppEnabledExtensionNames
        = env.glfwGetRequiredInstanceExtensions ++ [VK_EXT_DEBUG_UTILS_EXTENSION_NAME] ∧
      ci.ppEnabledExtensionNames.getLast? = some VK_EXT_DEBUG_UTILS_EXTENSION_NAME ∧
      ci.ppEnabledExtensionNames.length = env.glfwGetRequiredInstanceExtensions.length + 1 ∧
      (env.glfwGetRequiredInstanceExtensions.length + 1 < 2 ^ 32 →
        ci.enabledExtensionCount = env.glfwGetRequiredInstanceExtensions.length + 1)) ∧
    (env.instanceVectorsAllocated = true →
      ∃ ci, instanceCreateInfos (createInstance env g).trace = [ci] ∧
        ci.ppEnabledExtensionNames
          = env.glfwGetRequiredInstanceExtensions ++ [VK_EXT_DEBUG_UTILS_EXTENSION_NAME] ∧
        ci.ppEnabledExtensionNames.getLast? = some VK_EXT_DEBUG_UTILS_EXTENSION_NAME ∧
        ci.ppEnabledExtensionNames.length
          = env.glfwGetRequiredInstanceExtensions.length + 1 ∧
        (env.glfwGetRequiredInstanceExtensions.length + 1 < 2 ^ 32 →
          ci.enabledExtensionCount = env.glfwGetRequiredInstanceExtensions.length + 1) ∧
        (∀ layers : List String,
          Env.instanceVectorsAllocated
            { env with vkEnumerateInstanceLayerProperties := layers } = true →
          (instanceCreateInfos
            (createInstance { env with vkEnumerateInstanceLayerProperties := layers } g).trace).map
              (fun c => c.ppEnabledExtensionNames)
            = [ci.ppEnabledExtensionNames])) := by
  have hfacts : ∀ e : Env,
      (instanceCreateInfo e).ppEnabledExtensionNames
        = e.glfwGetRequiredInstanceExtensions ++ [VK_EXT_DEBUG_UTILS_EXTENSION_NAME] ∧
      (instanceCreateInfo e).ppEnabledExtensionNames.getLast?
        = some VK_EXT_DEBUG_UTILS_EXTENSION_NAME ∧
      (instanceCreateInfo e).ppEnabledExtensionNames.length
        = e.glfwGetRequiredInstanceExtensions.length + 1 ∧
      (e.glfwGetRequiredInstanceExtensions.length + 1 < 2 ^ 32 →
        (instanceCreateInfo e).enabledExtensionCount
          = e.glfwGetRequiredInstanceExtensions.length + 1) := by
    intro e
    obtain ⟨hn, hc⟩ := instanceCreateInfo_extensions e
    rw [hn, hc]
    refine ⟨rfl, ?_, ?_, ?_⟩
    · simp [extensions]
    · simp [extensions]
    · intro hlt
      simp only [extensions, toUInt32, List.length_append, List.length_singleton]
      exact Nat.mod_eq_of_lt hlt
  refine ⟨?_, ?_⟩
  · intro ci hci
    rw [instanceCreateInfos_createInstance] at hci
    split_ifs at hci
    · rw [List.mem_singleton] at hci
      subst hci
      exact hfacts env
    · simp at hci
  · intro hAlloc
    obtain ⟨h1, h2, h3, h4⟩ := hfacts env
    refine ⟨instanceCreateInfo env, ?_, h1, h2, h3, h4, ?_⟩
    · rw [instanceCreateInfos_createInstance, if_pos hAlloc]
    · intro layers hl
      rw [instanceCreateInfos_createInstance, if_pos hl, List.map_singleton, h1,
        (hfacts { env with vkEnumerateInstanceLayerProperties := layers }).1]

/-- Instance of C8 on the sample host, which requires two extensions. -/
theorem createInstance_extension_list_witness :
    ∃ ci, instanceCreateInfos (createInstance sampleEnv Globals.initial).trace = [ci] ∧
      ci.ppEnabledExtensionNames
        = ["VK_KHR_surface", "VK_KHR_xcb_surface", VK_EXT_DEBUG_UTILS_EXTENSION_NAME] ∧
      ci.enabledExtensionCount = 3 := by
  obtain ⟨ci, h1, h2, _, _, h5, _⟩ :=
    (createInstance_extension_list sampleEnv Globals.initial).2 (by decide)
  exact ⟨ci, h1, h2, h5 (by decide)⟩

/-! ## The top level -/

/-- Initialisation failure: the `catch` handler runs `cleanup` on the initial
globals. -/
theorem main_initFailed (env : Env) (fuel : Nat) (h : env.glfwInit = false) :
    main env fuel = ([Call.glfwInit false, Call.glfwTerminate], Outcome.returned (-1)) := by
  simp [main, tryBlock, Run.andThen, initWindow, h, cleanup, Globals.initial, VK_NULL_HANDLE]

/-- Window-creation failure: the `catch` handler runs `cleanup` with all three
globals still null. -/
theorem main_windowFailed (env : Env) (fuel : Nat) (h : env.glfwInit = true)
    (hw : env.glfwCreateWindow = 0) :
    main env fuel =
      ([Call.glfwInit true,
        Call.glfwWindowHint GLFW_CLIENT_API GLFW_NO_API,
        Call.glfwWindowHint GLFW_RESIZABLE GLFW_FALSE,
        Call.glfwCreateWindow 800 600 "Vulkan Validation" 0,
        Call.glfwTerminate], Outcome.returned (-1)) := by
  simp [main, tryBlock, Run.andThen, initWindow, h, hw, cleanup, Globals.initial, VK_NULL_HANDLE]

/-- A vector of `createInstance` cannot be allocated: the `catch` handler runs
`cleanup`, which destroys the window. -/
theorem main_instanceVectorsFailed (env : Env) (fuel : Nat) (h : env.glfwInit = true)
    (hw : env.glfwCreateWindow ≠ 0) (ha : env.instanceVectorsAllocated = false) :
    main env fuel =
      ([Call.glfwInit true,
        Call.glfwWindowHint GLFW_CLIENT_API GLFW_NO_API,
        Call.glfwWindowHint GLFW_RESIZABLE GLFW_FALSE,
        Call.glfwCreateWindow 800 600 "Vulkan Validation" env.glfwCreateWindow]
        ++ (createInstance env
              { vkInstance := 0, surface := 0, window := env.glfwCreateWindow }).trace
        ++ [Call.glfwDestroyWindow env.glfwCreateWindow, Call.glfwTerminate],
       Outcome.returned (-1)) := by
  obtain ⟨he, hg, _⟩ :=
    createInstance_not_allocated env
      { vkInstance := 0, surface := 0, window := env.glfwCreateWindow } ha
  simp only [bad_alloc] at he
  simp [main, tryBlock, Run.andThen, initWindow, h, hw, he, hg, cleanup, Globals.initial,
    VK_NULL_HANDLE]

/-- Instance-creation failure: the process ends in `abort()`. -/
theorem main_instanceFailed (env : Env) (fuel : Nat) (h : env.glfwInit = true)
    (hw : env.glfwCreateWindow ≠ 0) (ha : env.instanceVectorsAllocated = true)
    (hi : env.vkCreateInstance.1 ≠ VK_SUCCESS) :
    main env fuel =
      ([Call.glfwInit true,
        Call.glfwWindowHint GLFW_CLIENT_API GLFW_NO_API,
        Call.glfwWindowHint GLFW_RESIZABLE GLFW_FALSE,
        Call.glfwCreateWindow 800 600 "Vulkan Validation" env.glfwCreateWindow,
        Call.glfwGetRequiredInstanceExtensions,
        Call.vkEnumerateInstanceLayerProperties false,
        Call.vkEnumerateInstanceLayerProperties
          (decide (env.vkEnumerateInstanceLayerProperties.length ≠ 0)),
        Call.vkCreateInstance (instanceCreateInfo env) env.vkCreateInstance.1
          env.vkCreateInstance.2,
        Call.abort], Outcome.aborted) := by
  simp [main, tryBlock, Run.andThen, initWindow, createInstance_allocated env _ ha,
    VK_CHECK_RESULT, h, hw, hi]

/-- Surface-creation failure: the process ends in `abort()`. -/
theorem main_surfaceFailed (env : Env) (fuel : Nat) (h : env.glfwInit = true)
    (hw : env.glfwCreateWindow ≠ 0) (ha : env.instanceVectorsAllocated = true)
    (hi : env.vkCreateInstance.1 = VK_SUCCESS)
    (hs : env.glfwCreateWindowSurface.1 ≠ VK_SUCCESS) :
    main env fuel =
      ([Call.glfwInit true,
        Call.glfwWindowHint GLFW_CLIENT_API GLFW_NO_API,
        Call.glfwWindowHint GLFW_RESIZABLE GLFW_FALSE,
        Call.glfwCreateWindow 800 600 "Vulkan Validation" env.glfwCreateWindow,
        Call.glfwGetRequiredInstanceExtensions,
        Call.vkEnumerateInstanceLayerProperties false,
        Call.vkEnumerateInstanceLayerProperties
          (decide (env.vkEnumerateInstanceLayerProperties.length ≠ 0)),
        Call.vkCreateInstance (instanceCreateInfo env) VK_SUCCESS env.vkCreateInstance.2,
        Call.glfwCreateWindowSurface env.vkCreateInstance.2 env.glfwCreateWindow
          env.glfwCreateWindowSurface.1 env.glfwCreateWindowSurface.2,
        Call.abort], Outcome.aborted) := by
  simp [main, tryBlock, Run.andThen, initWindow, createInstance_allocated env _ ha,
    createSurface, VK_CHECK_RESULT, h, hw, hi, hs]

/-- When window, instance and surface creation succeed and the validator
returns, the `try` block runs the validator and then the poll loop. -/
theorem tryBlock_stagesOk (env : Env) (fuel : Nat) (h : env.glfwInit = true)
    (hw : env.glfwCreateWindow ≠ 0) (ha : env.instanceVectorsAllocated = true)
    (hi : env.vkCreateInstance.1 = VK_SUCCESS)
    (hs : env.glfwCreateWindowSurface.1 = VK_SUCCESS)
    (hv : env.gpuCount = 0 ∨ env.physicalDevicesAllocated = true) :
    tryBlock env fuel =
      { globals := { vkInstance := env.vkCreateInstance.2,
                     surface := env.glfwCreateWindowSurface.2,
                     window := env.glfwCreateWindow },
        trace := stagesTrace env ++ (validateVma env env.vkCreateInstance.2).1
          ++ (pollLoop env env.glfwCreateWindow fuel 0).1,
        exit := (pollLoop env env.glfwCreateWindow fuel 0).2 } := by
  simp [tryBlock, Run.andThen, initWindow, createInstance_allocated env _ ha, createSurface,
    VK_CHECK_RESULT, h, hw, hi, hs, validateVma_exit env _ hv, stagesTrace, Globals.initial]

/-- When window, instance and surface creation succeed and the device-handle
vector cannot be allocated, `std::bad_alloc` reaches the `catch` handler:
`cleanup` runs and `main` returns `-1` without entering the poll loop. -/
theorem main_deviceVectorFailed (env : Env) (fuel : Nat) (h : env.glfwInit = true)
    (hw : env.glfwCreateWindow ≠ 0) (ha : env.instanceVectorsAllocated = true)
    (hi : env.vkCreateInstance.1 = VK_SUCCESS)
    (hs : env.glfwCreateWindowSurface.1 = VK_SUCCESS)
    (h0 : env.gpuCount ≠ 0) (hp : env.physicalDevicesAllocated = false) :
    main env fuel =
      (stagesTrace env ++ [Call.vkEnumeratePhysicalDevices env.vkCreateInstance.2 false]
        ++ cleanup { vkInstance := env.vkCreateInstance.2,
                     surface := env.glfwCreateWindowSurface.2,
                     window := env.glfwCreateWindow },
       Outcome.returned (-1)) := by
  simp [main, tryBlock, Run.andThen, initWindow, createInstance_allocated env _ ha,
    createSurface, VK_CHECK_RESULT, h, hw, hi, hs, validateVma_vectorFailed env _ h0 hp,
    bad_alloc, stagesTrace, Globals.initial]

/-- The loop either ends or is still running when the bound is reached. -/
theorem pollLoop_exit (env : Env) (w : Handle) (fuel i : Nat) :
    (pollLoop env w fuel i).2 = Exit.normal ∨ (pollLoop env w fuel i).2 = Exit.running := by
  induction fuel generalizing i with
  | zero => simp [pollLoop]
  | succ n ih =>
    simp only [pollLoop]
    split_ifs
    · simp
    · simp
    · exact ih (i + 1)

/-- The loop ends once the window is closed or the escape key is seen, given
enough observed iterations. -/
theorem pollLoop_ends (env : Env) (w : Handle) (fuel : Nat) :
    ∀ i k : Nat, k < fuel →
      (env.glfwWindowShouldClose (i + k) = true ∨ env.glfwGetKey (i + k) = GLFW_PRESS) →
      (pollLoop env w fuel i).2 = Exit.normal := by
  induction fuel with
  | zero => intro i k hk; omega
  | succ n ih =>
    intro i k hk hend
    simp only [pollLoop]
    split_ifs with hc hp
    · rfl
    · rfl
    · cases k with
      | zero =>
        rcases hend with h | h
        · exact absurd h hc
        · exact absurd h hp
      | succ k2 =>
        have h2 : i + 1 + k2 = i + (k2 + 1) := by omega
        exact ih (i + 1) k2 (by omega) (by rw [h2]; exact hend)

/-- The first call of the loop is the evaluation of its condition. -/
theorem pollLoop_head (env : Env) (w : Handle) (fuel i : Nat) (h : 0 < fuel) :
    ∃ rest, (pollLoop env w fuel i).1 = Call.glfwWindowShouldClose w :: rest := by
  cases fuel with
  | zero => omega
  | succ n =>
    simp only [pollLoop]
    split_ifs <;> simp

/-- The loop never calls `abort()`. -/
theorem pollLoop_no_abort (env : Env) (w : Handle) (fuel : Nat) :
    ∀ i, Call.abort ∉ (pollLoop env w fuel i).1 := by
  induction fuel with
  | zero => intro i; simp [pollLoop]
  | succ n ih =>
    intro i
    simp only [pollLoop]
    split_ifs
    · simp
    · simp
    · simpa using ih (i + 1)

/-- After four completed stages, `main` ends as the loop ends. -/
theorem main_stagesOk (env : Env) (fuel : Nat) (h : env.glfwInit = true)
    (hw : env.glfwCreateWindow ≠ 0) (ha : env.instanceVectorsAllocated = true)
    (hi : env.vkCreateInstance.1 = VK_SUCCESS)
    (hs : env.glfwCreateWindowSurface.1 = VK_SUCCESS)
    (hv : env.gpuCount = 0 ∨ env.physicalDevicesAllocated = true) :
    ((pollLoop env env.glfwCreateWindow fuel 0).2 = Exit.normal ∧
      main env fuel =
        (stagesTrace env ++ (validateVma env env.vkCreateInstance.2).1
          ++ (pollLoop env env.glfwCreateWindow fuel 0).1
          ++ cleanup { vkInstance := env.vkCreateInstance.2,
                       surface := env.glfwCreateWindowSurface.2,
                       window := env.glfwCreateWindow },
         Outcome.returned 0)) ∨
    ((pollLoop env env.glfwCreateWindow fuel 0).2 = Exit.running ∧
      main env fuel =
        (stagesTrace env ++ (validateVma env env.vkCreateInstance.2).1
          ++ (pollLoop env env.glfwCreateWindow fuel 0).1,
         Outcome.running)) := by
  rcases pollLoop_exit env env.glfwCreateWindow fuel 0 with hl | hl
  · left
    refine ⟨hl, ?_⟩
    simp only [main, tryBlock_stagesOk env fuel h hw ha hi hs hv, hl]
  · right
    refine ⟨hl, ?_⟩
    simp only [main, tryBlock_stagesOk env fuel h hw ha hi hs hv, hl]

/-- How `main` ends, by the outcomes of the external calls and allocations. -/
theorem main_outcome (env : Env) (fuel : Nat) :
    (main env fuel).2 =
      if env.glfwInit = false ∨ env.glfwCreateWindow = 0 ∨
          env.instanceVectorsAllocated = false then Outcome.returned (-1)
      else if env.vkCreateInstance.1 ≠ VK_SUCCESS ∨
          env.glfwCreateWindowSurface.1 ≠ VK_SUCCESS then Outcome.aborted
      else if env.gpuCount ≠ 0 ∧ env.physicalDevicesAllocated = false then
        Outcome.returned (-1)
      else if (pollLoop env env.glfwCreateWindow fuel 0).2 = Exit.normal then
        Outcome.returned 0
      else Outcome.running := by
  by_cases h : env.glfwInit = true
  · by_cases hw : env.glfwCreateWindow = 0
    · rw [main_windowFailed env fuel h hw]
      simp [hw]
    · by_cases ha : env.instanceVectorsAllocated = true
      · by_cases hi : env.vkCreateInstance.1 = VK_SUCCESS
        · by_cases hs : env.glfwCreateWindowSurface.1 = VK_SUCCESS
          · by_cases hv : env.gpuCount = 0 ∨ env.physicalDevicesAllocated = true
            · have hv2 : ¬ (env.gpuCount ≠ 0 ∧ env.physicalDevicesAllocated = false) := by
                rintro ⟨h0, hp⟩
                rcases hv with hv | hv
                · exact h0 hv
                · rw [hp] at hv
                  exact absurd hv (by decide)
              rcases main_stagesOk env fuel h hw ha hi hs hv with ⟨hl, hm⟩ | ⟨hl, hm⟩
              · rw [hm]
                simp [h, hw, ha, hi, hs, hv2, hl]
              · rw [hm]
                simp [h, hw, ha, hi, hs, hv2, hl]
            · have h0 : env.gpuCount ≠ 0 := fun h0 => hv (Or.inl h0)
              have hp : env.physicalDevicesAllocated = false := by
                cases hb : env.physicalDevicesAllocated
                · rfl
                · exact absurd (Or.inr hb) hv
              rw [main_deviceVectorFailed env fuel h hw ha hi hs h0 hp]
              simp [h, hw, ha, hi, hs, h0, hp]
          · rw [main_surfaceFailed env fuel h hw ha hi hs]
            simp [h, hw, ha, hi, hs]
        · rw [main_instanceFailed env fuel h hw ha hi]
          simp [h, hw, ha, hi]
      · have hf : env.instanceVectorsAllocated = false := by simpa using ha
        rw [main_instanceVectorsFailed env fuel h hw hf]
        simp [hf]
  · have hf : env.glfwInit = false := by simpa using h
    rw [main_initFailed env fuel hf]
    simp [hf]

/-- C6: `main` returns `0` whenever all four stages complete without throwing
(window, instance and surface created, every vector allocated) and the poll
loop ends (window closed or escape seen) within the observed iterations; it
returns `-1` whenever a `std::exception` thrown by a stage reaches the top
level, in particular when the windowing subsystem fails to initialise or the
window is not created, and only then; no other value is ever returned. -/
theorem main_exit_code (env : Env) (fuel : Nat) :
    (∀ c, (main env fuel).2 = Outcome.returned c → c = 0 ∨ c = -1) ∧
    (env.glfwInit = true → env.glfwCreateWindow ≠ 0 →
      env.instanceVectorsAllocated = true →
      env.vkCreateInstance.1 = VK_SUCCESS → env.glfwCreateWindowSurface.1 = VK_SUCCESS →
      (env.gpuCount = 0 ∨ env.physicalDevicesAllocated = true) →
      ∀ n, n < fuel →
        (env.glfwWindowShouldClose n = true ∨ env.glfwGetKey n = GLFW_PRESS) →
        (main env fuel).2 = Outcome.returned 0) ∧
    (∀ what, (tryBlock env fuel).exit = Exit.threw what →
      (main env fuel).2 = Outcome.returned (-1)) ∧
    ((env.glfwInit = false ∨ env.glfwCreateWindow = 0) →
      (main env fuel).2 = Outcome.returned (-1)) ∧
    ((main env fuel).2 = Outcome.returned (-1) ↔
      ∃ what, (tryBlock env fuel).exit = Exit.threw what) ∧
    ((main env fuel).2 = Outcome.returned (-1) ↔
      (env.glfwInit = false ∨ env.glfwCreateWindow = 0 ∨
        env.instanceVectorsAllocated = false ∨
        (env.vkCreateInstance.1 = VK_SUCCESS ∧ env.glfwCreateWindowSurface.1 = VK_SUCCESS ∧
          env.gpuCount ≠ 0 ∧ env.physicalDevicesAllocated = false))) ∧
    ((main env fuel).2 = Outcome.returned 0 ↔ (tryBlock env fuel).exit = Exit.normal) := by
  have hmain : ∀ e : Exit, (tryBlock env fuel).exit = e →
      (main env fuel).2 =
        match e with
        | Exit.normal => Outcome.returned 0
        | Exit.threw _ => Outcome.returned (-1)
        | Exit.aborted => Outcome.aborted
        | Exit.running => Outcome.running := by
    intro e he
    subst he
    simp only [main]
    split <;> simp_all
  refine ⟨?_, ?_, ?_, ?_, ?_, ?_, ?_⟩
  · intro c hc
    rw [main_outcome] at hc
    split_ifs at hc <;> simp at hc <;> omega
  · intro h hw ha hi hs hv n hn hend
    have hl := pollLoop_ends env env.glfwCreateWindow fuel 0 n hn (by simpa using hend)
    rcases main_stagesOk env fuel h hw ha hi hs hv with ⟨_, hm⟩ | ⟨hr, _⟩
    · rw [hm]
    · rw [hl] at hr
      exact absurd hr (by decide)
  · intro what ht
    rw [hmain _ ht]
  · intro hthrow
    rw [main_outcome, if_pos]
    rcases hthrow with hf | hw
    · exact Or.inl hf
    · exact Or.inr (Or.inl hw)
  · constructor
    · intro hm
      cases he : (tryBlock env fuel).exit with
      | normal => rw [hmain _ he] at hm; simp at hm
      | threw what => exact ⟨what, rfl⟩
      | aborted => rw [hmain _ he] at hm; simp at hm
      | running => rw [hmain _ he] at hm; simp at hm
    · rintro ⟨what, ht⟩
      rw [hmain _ ht]
  · rw [main_outcome]
    split_ifs with c1 c2 c3 c4
    · simp only [true_iff]
      rcases c1 with c | c | c
      · exact Or.inl c
      · exact Or.inr (Or.inl c)
      · exact Or.inr (Or.inr (Or.inl c))
    · simp only [reduceCtorEq, false_iff]
      rintro (c | c | c | ⟨ci, cs, _, _⟩)
      · exact c1 (Or.inl c)
      · exact c1 (Or.inr (Or.inl c))
      · exact c1 (Or.inr (Or.inr c))
      · rcases c2 with c | c
        · exact c ci
        · exact c cs
    · simp only [true_iff]
      refine Or.inr (Or.inr (Or.inr ⟨?_, ?_, c3.1, c3.2⟩))
      · by_contra hx
        exact c2 (Or.inl hx)
      · by_contra hx
        exact c2 (Or.inr hx)
    · have hne : Outcome.returned 0 ≠ Outcome.returned (-1) := by decide
      simp only [hne, false_iff]
      rintro (c | c | c | ⟨_, _, cg, cp⟩)
      · exact c1 (Or.inl c)
      · exact c1 (Or.inr (Or.inl c))
      · exact c1 (Or.inr (Or.inr c))
      · exact c3 ⟨cg, cp⟩
    · simp only [reduceCtorEq, false_iff]
      rintro (c | c | c | ⟨_, _, cg, cp⟩)
      · exact c1 (Or.inl c)
      · exact c1 (Or.inr (Or.inl c))
      · exact c1 (Or.inr (Or.inr c))
      · exact c3 ⟨cg, cp⟩
  · constructor
    · intro hm
      cases he : (tryBlock env fuel).exit with
      | normal => rfl
      | threw what =>
        rw [hmain _ he] at hm
        have hne : Outcome.returned (-1) ≠ Outcome.returned 0 := by decide
        exact absurd hm hne
      | aborted => rw [hmain _ he] at hm; simp at hm
      | running => rw [hmain _ he] at hm; simp at hm
    · intro ht
      rw [hmain _ ht]

/-- Instance of C6: the sample host, where escape is seen in the third
iteration, and a host where the windowing subsystem fails to initialise. -/
theorem main_exit_code_witness :
    (main sampleEnv 5).2 = Outcome.returned 0 ∧
    (main initFailureEnv 5).2 = Outcome.returned (-1) :=
  ⟨(main_exit_code sampleEnv 5).2.1 rfl (by decide) (by decide) rfl rfl (Or.inr rfl) 2
      (by decide) (Or.inr (by decide)),
   (main_exit_code initFailureEnv 5).2.2.2.1 (Or.inl rfl)⟩

/-- C9, as stated, fails: window, instance and surface creation succeed, the
runtime reports `4294967295` devices, the vector of that many handles cannot be
allocated, `validateVma` throws `std::bad_alloc`, and `main` runs `cleanup` and
returns `-1` without ever evaluating the condition of its poll loop. -/
theorem device_vector_failure_skips_poll_loop :
    deviceVectorFailureEnv.glfwInit = true ∧
    deviceVectorFailureEnv.glfwCreateWindow ≠ 0 ∧
    (createInstance deviceVectorFailureEnv
      { vkInstance := 0, surface := 0, window := 7 }).exit = Exit.normal ∧
    (createSurface deviceVectorFailureEnv
      { vkInstance := 11, surface := 0, window := 7 }).exit = Exit.normal ∧
    (validateVma deviceVectorFailureEnv 11).2 = Exit.threw "std::bad_alloc" ∧
    (∀ w, Call.glfwWindowShouldClose w ∉ (main deviceVectorFailureEnv 5).1) ∧
    (main deviceVectorFailureEnv 5).2 = Outcome.returned (-1) := by
  have hm := main_deviceVectorFailed deviceVectorFailureEnv 5 rfl (by decide) (by decide)
    rfl rfl (by decide) rfl
  refine ⟨rfl, by decide, ?_, ?_, ?_, ?_, ?_⟩
  · rw [createInstance_allocated deviceVectorFailureEnv _ (by decide)]
    rfl
  · rfl
  · rw [validateVma_vectorFailed deviceVectorFailureEnv 11 (by decide) rfl]
    rfl
  · intro w
    rw [hm]
    simp [stagesTrace, cleanup, deviceVectorFailureEnv, sampleEnv]
  · rw [hm]

/-- C9, amended: the validator returns normally when no device is found and,
once its device-handle vector is allocated, on every outcome of device and
allocator creation; `createInstance` returns normally whenever instance
creation succeeds, whether or not the validation layer is available; and when
window, instance and surface creation succeed and the device-handle vector of
the validator is allocated (or not needed), `main` runs the validator and then
evaluates the condition of its poll loop, without aborting or returning `-1`. -/
theorem soft_conditions_reach_poll_loop (env : Env) (fuel : Nat) :
    (∀ inst, (env.gpuCount = 0 ∨ env.physicalDevicesAllocated = true) →
      (validateVma env inst).2 = Exit.normal) ∧
    (∀ inst, Call.abort ∉ (validateVma env inst).1) ∧
    (∀ g, env.instanceVectorsAllocated = true → env.vkCreateInstance.1 = VK_SUCCESS →
      (createInstance env g).exit = Exit.normal) ∧
    (env.glfwInit = true → env.glfwCreateWindow ≠ 0 →
      env.instanceVectorsAllocated = true →
      env.vkCreateInstance.1 = VK_SUCCESS → env.glfwCreateWindowSurface.1 = VK_SUCCESS →
      (env.gpuCount = 0 ∨ env.physicalDevicesAllocated = true) →
      0 < fuel →
      (∃ pre rest, (main env fuel).1
          = pre ++ (validateVma env env.vkCreateInstance.2).1
            ++ Call.glfwWindowShouldClose env.glfwCreateWindow :: rest) ∧
      Call.abort ∉ (main env fuel).1 ∧
      ((main env fuel).2 = Outcome.returned 0 ∨ (main env fuel).2 = Outcome.running)) := by
  refine ⟨fun inst hv => validateVma_exit env inst hv, validateVma_no_abort env, ?_, ?_⟩
  · intro g ha hs
    rw [createInstance_allocated env g ha]
    simp [VK_CHECK_RESULT, hs]
  · intro h hw ha hi hs hv hfuel
    obtain ⟨rest, hrest⟩ := pollLoop_head env env.glfwCreateWindow fuel 0 hfuel
    have hclean : ∀ g, Call.abort ∉ cleanup g := by
      intro g
      simp only [cleanup]
      split_ifs <;> simp
    have hstages : Call.abort ∉ stagesTrace env := by
      simp [stagesTrace]
    have hvma := validateVma_no_abort env env.vkCreateInstance.2
    have hloop := pollLoop_no_abort env env.glfwCreateWindow fuel 0
    rcases main_stagesOk env fuel h hw ha hi hs hv with ⟨_, hm⟩ | ⟨_, hm⟩
    · refine ⟨⟨stagesTrace env, rest ++ cleanup
          { vkInstance := env.vkCreateInstance.2, surface := env.glfwCreateWindowSurface.2,
            window := env.glfwCreateWindow }, ?_⟩, ?_, Or.inl (by rw [hm])⟩
      · rw [hm, hrest]
        simp
      · rw [hm]
        simp only [List.mem_append, not_or]
        exact ⟨⟨⟨hstages, hvma⟩, hloop⟩, hclean _⟩
    · refine ⟨⟨stagesTrace env, rest, ?_⟩, ?_, Or.inr (by rw [hm])⟩
      · rw [hm, hrest]
      · rw [hm]
        simp only [List.mem_append, not_or]
        exact ⟨⟨hstages, hvma⟩, hloop⟩

/-- Instance of the amended C9 on a host without validation layer and without
any physical device: the program still returns `0` after its poll loop. -/
theorem soft_conditions_reach_poll_loop_witness :
    (validateVma softFailureEnv 11).2 = Exit.normal ∧
    (createInstance softFailureEnv Globals.initial).exit = Exit.normal ∧
    Call.abort ∉ (main softFailureEnv 5).1 ∧
    ((main softFailureEnv 5).2 = Outcome.returned 0 ∨
      (main softFailureEnv 5).2 = Outcome.running) :=
  ⟨(soft_conditions_reach_poll_loop softFailureEnv 5).1 11 (Or.inl rfl),
   (soft_conditions_reach_poll_loop softFailureEnv 5).2.2.1 Globals.initial (by decide) rfl,
   ((soft_conditions_reach_poll_loop softFailureEnv 5).2.2.2 rfl (by decide) (by decide)
      rfl rfl (Or.inl rfl) (by decide)).2⟩

/-- C3, as stated, fails: when instance creation fails the window `7` has been
created, the process ends in `abort()`, `cleanup` has not run (no
`glfwTerminate` call) and the window has not been destroyed. -/
theorem instance_failure_skips_cleanup :
    instanceFailureEnv.vkCreateInstance.1 ≠ VK_SUCCESS ∧
    windowsCreated (main instanceFailureEnv 1).1 = [7] ∧
    windowsDestroyed (main instanceFailureEnv 1).1 = [] ∧
    (main instanceFailureEnv 1).1.count Call.glfwTerminate = 0 ∧
    (main instanceFailureEnv 1).2 = Outcome.aborted ∧
    ¬ (∀ w ∈ windowsCreated (main instanceFailureEnv 1).1,
        (windowsDestroyed (main instanceFailureEnv 1).1).count w = 1) := by
  have hm := main_instanceFailed instanceFailureEnv 1 rfl (by decide) (by decide) (by decide)
  rw [hm]
  refine ⟨by decide, ?_, ?_, ?_, rfl, ?_⟩
  · simp [windowsCreated, instanceFailureEnv, sampleEnv]
  · simp [windowsDestroyed]
  · simp
  · simp [windowsCreated, windowsDestroyed, instanceFailureEnv, sampleEnv]

/-- The validator issues no checked creation call. -/
theorem validateVma_no_checkedCreate (env : Env) (inst : Handle) :
    ∀ c ∈ (validateVma env inst).1, c.isFailedCheckedCreate = false := by
  simp only [validateVma]
  split_ifs <;> simp [Call.isFailedCheckedCreate]

/-- The poll loop issues no checked creation call. -/
theorem pollLoop_no_checkedCreate (env : Env) (w : Handle) (fuel : Nat) :
    ∀ i, ∀ c ∈ (pollLoop env w fuel i).1, c.isFailedCheckedCreate = false := by
  induction fuel with
  | zero => intro i; simp [pollLoop]
  | succ n ih =>
    intro i
    simp only [pollLoop]
    split_ifs
    · simp [Call.isFailedCheckedCreate]
    · simp [Call.isFailedCheckedCreate]
    · intro c hc
      simp only [List.mem_append, List.mem_cons, List.mem_singleton, List.not_mem_nil,
        or_false] at hc
      rcases hc with (hc | hc | hc) | hc
      · subst hc; rfl
      · subst hc; rfl
      · subst hc; rfl
      · exact ih (i + 1) c hc

/-- The teardown issues no checked creation call. -/
theorem cleanup_no_checkedCreate (g : Globals) :
    ∀ c ∈ cleanup g, c.isFailedCheckedCreate = false := by
  simp only [cleanup]
  split_ifs <;> simp [Call.isFailedCheckedCreate]

/-- The calls of three successful creation stages contain no failed checked
creation call. -/
theorem stagesTrace_no_failedCreate (env : Env) :
    ∀ c ∈ stagesTrace env, c.isFailedCheckedCreate = false := by
  simp [stagesTrace, Call.isFailedCheckedCreate]

/-- Whenever a checked creation call of `main` returns a failure code, the
process ends in `abort()` and no destroy or teardown call is issued. -/
theorem main_failed_checkedCreate (env : Env) (fuel : Nat) (c : Call)
    (hc : c ∈ (main env fuel).1) (hf : c.isFailedCheckedCreate = true) :
    (main env fuel).2 = Outcome.aborted ∧
    (∀ c2 ∈ (main env fuel).1, c2.isDestroy = false ∧ c2.isTeardown = false) := by
  have hcontra : (∀ c2 ∈ (main env fuel).1, c2.isFailedCheckedCreate = false) → False := by
    intro hall
    rw [hall c hc] at hf
    exact absurd hf (by decide)
  by_cases h : env.glfwInit = true
  · by_cases hw : env.glfwCreateWindow = 0
    · exfalso
      apply hcontra
      rw [main_windowFailed env fuel h hw]
      simp [Call.isFailedCheckedCreate]
    · by_cases ha : env.instanceVectorsAllocated = true
      · by_cases hi : env.vkCreateInstance.1 = VK_SUCCESS
        · by_cases hs : env.glfwCreateWindowSurface.1 = VK_SUCCESS
          · exfalso
            apply hcontra
            by_cases hv : env.gpuCount = 0 ∨ env.physicalDevicesAllocated = true
            · rcases main_stagesOk env fuel h hw ha hi hs hv with ⟨_, hm⟩ | ⟨_, hm⟩
              · rw [hm]
                intro c2 hc2
                simp only [List.mem_append] at hc2
                rcases hc2 with ((hc2 | hc2) | hc2) | hc2
                · exact stagesTrace_no_failedCreate env c2 hc2
                · exact validateVma_no_checkedCreate env _ c2 hc2
                · exact pollLoop_no_checkedCreate env _ fuel 0 c2 hc2
                · exact cleanup_no_checkedCreate _ c2 hc2
              · rw [hm]
                intro c2 hc2
                simp only [List.mem_append] at hc2
                rcases hc2 with (hc2 | hc2) | hc2
                · exact stagesTrace_no_failedCreate env c2 hc2
                · exact validateVma_no_checkedCreate env _ c2 hc2
                · exact pollLoop_no_checkedCreate env _ fuel 0 c2 hc2
            · have h0 : env.gpuCount ≠ 0 := fun h0 => hv (Or.inl h0)
              have hp : env.physicalDevicesAllocated = false := by
                cases hb : env.physicalDevicesAllocated
                · rfl
                · exact absurd (Or.inr hb) hv
              rw [main_deviceVectorFailed env fuel h hw ha hi hs h0 hp]
              intro c2 hc2
              simp only [List.mem_append, List.mem_singleton] at hc2
              rcases hc2 with (hc2 | hc2) | hc2
              · exact stagesTrace_no_failedCreate env c2 hc2
              · subst hc2; rfl
              · exact cleanup_no_checkedCreate _ c2 hc2
          · rw [main_surfaceFailed env fuel h hw ha hi hs]
            simp [Call.isDestroy, Call.isTeardown]
        · rw [main_instanceFailed env fuel h hw ha hi]
          simp [Call.isDestroy, Call.isTeardown]
      · exfalso
        apply hcontra
        have hf2 : env.instanceVectorsAllocated = false := by simpa using ha
        rw [main_instanceVectorsFailed env fuel h hw hf2]
        rcases (createInstance_not_allocated env
          { vkInstance := 0, surface := 0, window := env.glfwCreateWindow } hf2).2.2 with ht | ht <;>
          simp [ht, Call.isFailedCheckedCreate]
  · exfalso
    apply hcontra
    have hf2 : env.glfwInit = false := by simpa using h
    rw [main_initFailed env fuel hf2]
    simp [Call.isFailedCheckedCreate]

/-- C3, amended: for the two fatal failures raised as exceptions (windowing
subsystem not initialised, window not created) `main` runs `cleanup` exactly
once, as its last calls, and returns `-1`; no window or instance exists at that
point and no destroy call is issued.  For the two fatal failures detected by
`VK_CHECK_RESULT` (the instance-creation call or the surface-creation call
returns a failure code) the process ends in `abort()` as its last call, and no
destroy or teardown call is issued for the window already created. -/
theorem fatal_failure_paths (env : Env) (fuel : Nat) :
    ((env.glfwInit = false ∨ env.glfwCreateWindow = 0) →
      (main env fuel).2 = Outcome.returned (-1) ∧
      (main env fuel).1.count Call.glfwTerminate = 1 ∧
      (main env fuel).1.getLast? = some Call.glfwTerminate ∧
      windowsCreated (main env fuel).1 = [] ∧
      instancesCreated (main env fuel).1 = [] ∧
      (∀ c ∈ (main env fuel).1, c.isDestroy = false)) ∧
    (env.glfwInit = true → env.glfwCreateWindow ≠ 0 →
      env.instanceVectorsAllocated = true →
      (env.vkCreateInstance.1 ≠ VK_SUCCESS ∨ env.glfwCreateWindowSurface.1 ≠ VK_SUCCESS) →
      (main env fuel).2 = Outcome.aborted ∧
      (main env fuel).1.getLast? = some Call.abort ∧
      (main env fuel).1.count Call.abort = 1 ∧
      windowsCreated (main env fuel).1 = [env.glfwCreateWindow] ∧
      (∀ c ∈ (main env fuel).1, c.isDestroy = false ∧ c.isTeardown = false)) ∧
    (∀ ci res i, Call.vkCreateInstance ci res i ∈ (main env fuel).1 → res ≠ VK_SUCCESS →
      (main env fuel).2 = Outcome.aborted ∧
      (∀ c ∈ (main env fuel).1, c.isDestroy = false ∧ c.isTeardown = false)) ∧
    (∀ i w res s, Call.glfwCreateWindowSurface i w res s ∈ (main env fuel).1 →
      res ≠ VK_SUCCESS →
      (main env fuel).2 = Outcome.aborted ∧
      (∀ c ∈ (main env fuel).1, c.isDestroy = false ∧ c.isTeardown = false)) := by
  refine ⟨?_, ?_, ?_, ?_⟩
  · intro hthrow
    by_cases h : env.glfwInit = true
    · have hw : env.glfwCreateWindow = 0 := by
        rcases hthrow with hf | hw
        · rw [h] at hf
          exact absurd hf (by decide)
        · exact hw
      rw [main_windowFailed env fuel h hw]
      simp [windowsCreated, instancesCreated, Call.isDestroy]
    · have hf : env.glfwInit = false := by simpa using h
      rw [main_initFailed env fuel hf]
      simp [windowsCreated, instancesCreated, Call.isDestroy]
  · intro h hw ha hfail
    by_cases hi : env.vkCreateInstance.1 = VK_SUCCESS
    · have hs : env.glfwCreateWindowSurface.1 ≠ VK_SUCCESS := by
        rcases hfail with hi2 | hs
        · exact absurd hi hi2
        · exact hs
      rw [main_surfaceFailed env fuel h hw ha hi hs]
      simp [windowsCreated, Call.isDestroy, Call.isTeardown, hw]
    · rw [main_instanceFailed env fuel h hw ha hi]
      simp [windowsCreated, Call.isDestroy, Call.isTeardown, hw]
  · intro ci res i hc hres
    exact main_failed_checkedCreate env fuel _ hc (by simp [Call.isFailedCheckedCreate, hres])
  · intro i w res s hc hres
    exact main_failed_checkedCreate env fuel _ hc (by simp [Call.isFailedCheckedCreate, hres])

/-- Instance of the amended C3: window-creation failure returns `-1` after one
teardown call; surface-creation failure ends in `abort()`. -/
theorem fatal_failure_paths_witness :
    (main { sampleEnv with glfwCreateWindow := 0 } 1).2 = Outcome.returned (-1) ∧
    (main { sampleEnv with glfwCreateWindow := 0 } 1).1.count Call.glfwTerminate = 1 ∧
    (main surfaceFailureEnv 1).2 = Outcome.aborted ∧
    (main surfaceFailureEnv 1).1.getLast? = some Call.abort :=
  ⟨((fatal_failure_paths { sampleEnv with glfwCreateWindow := 0 } 1).1 (Or.inr rfl)).1,
   ((fatal_failure_paths { sampleEnv with glfwCreateWindow := 0 } 1).1 (Or.inr rfl)).2.1,
   ((fatal_failure_paths surfaceFailureEnv 1).2.1 rfl (by decide) (by decide)
      (Or.inr (by decide))).1,
   ((fatal_failure_paths surfaceFailureEnv 1).2.1 rfl (by decide) (by decide)
      (Or.inr (by decide))).2.1⟩

/-- C7, as stated, fails: after the windowing subsystem fails to initialise,
`cleanup` is not a no-op; it issues the teardown call `glfwTerminate`. -/
theorem init_failure_cleanup_calls_terminate :
    initFailureEnv.glfwInit = false ∧
    cleanup (initWindow initFailureEnv Globals.initial).globals = [Call.glfwTerminate] ∧
    Call.glfwTerminate ∈ (main initFailureEnv 1).1 ∧
    ¬ (∀ c ∈ cleanup (initWindow initFailureEnv Globals.initial).globals,
        c.isDestroy = false ∧ c.isTeardown = false) := by
  refine ⟨rfl, by decide, ?_, ?_⟩
  · rw [main_initFailed initFailureEnv 1 rfl]
    simp
  · have hc : cleanup (initWindow initFailureEnv Globals.initial).globals
        = [Call.glfwTerminate] := by decide
    rw [hc]
    simp [Call.isTeardown]

/-- C7, amended: when `glfwInit` returns false, `initWindow` throws at once
without any window-creation call, `main` runs `cleanup` with all globals still
null, `cleanup` issues no destroy call and exactly one call, the unconditional
teardown `glfwTerminate`, and `main` returns `-1`. -/
theorem init_failure_path (env : Env) (fuel : Nat) (h : env.glfwInit = false) :
    (initWindow env Globals.initial).exit = Exit.threw "Failed to initialize GLFW!" ∧
    (initWindow env Globals.initial).trace = [Call.glfwInit false] ∧
    (initWindow env Globals.initial).globals = Globals.initial ∧
    cleanup (initWindow env Globals.initial).globals = [Call.glfwTerminate] ∧
    (main env fuel).1 = [Call.glfwInit false, Call.glfwTerminate] ∧
    (∀ c ∈ (main env fuel).1, c.isDestroy = false) ∧
    (main env fuel).2 = Outcome.returned (-1) := by
  rw [main_initFailed env fuel h]
  simp [initWindow, h, cleanup, Globals.initial, VK_NULL_HANDLE, Call.isDestroy]

/-- Instance of the amended C7 on a host whose windowing subsystem fails to
initialise. -/
theorem init_failure_path_witness :
    (main initFailureEnv 3).1 = [Call.glfwInit false, Call.glfwTerminate] ∧
    (main initFailureEnv 3).2 = Outcome.returned (-1) :=
  ⟨(init_failure_path initFailureEnv 3 rfl).2.2.2.2.1,
   (init_failure_path initFailureEnv 3 rfl).2.2.2.2.2.2⟩

end FSRenderer
